import Mathlib

/-!
# Verification of the prompt_governor core against its specification

Shallow embedding of the algorithmic core of the repository:
* `mvp/services/metrics.py` — field-accuracy comparator (`calculate_metrics`),
  cost accounting (`calculate_cost`), token-usage normalization
  (`extract_token_usage`);
* `mvp/services/executor.py` — ground-truth loading (`load_ground_truth`) and
  the run execution state machine (`execute_run`);
* `mvp/models/run.py` — the `Run` record and its pydantic construction-time
  validators.

Modelling conventions:
* Python dicts are association lists `List (String × _)`; JSON values are the
  inductive `Json` below.  Python sets of strings are `Finset String`.
* Python floats are modelled as exact rationals `ℚ`; `round(x, 6)` is modelled
  as rounding to 6 decimal places with round-half-to-even ties (`roundTo6`),
  matching Python's `round` semantics on exactly representable values.
* `str.lower()` / `str.strip()` are modelled character-wise (`pyLower`,
  `pyStrip`), faithful on the ASCII field names the system manipulates.
* Fallible Python code (raising exceptions) returns `Except`.
* The external extraction pipeline (`ModularPipeline`,
  `calculate_recall_accuracy`), file I/O and wall-clock reads are external
  collaborators of `execute_run`; they enter the embedding as
  environment-supplied results (`ExecEnv`), while all control flow of
  `execute_run` itself is embedded from the source.
-/

/-- JSON values, the shape of Python dict/list/leaf data handled by the
comparator.  Numbers are modelled as exact rationals. -/
inductive Json where
  | null : Json
  | bool (b : Bool) : Json
  | num (q : ℚ) : Json
  | str (s : String) : Json
  | arr (xs : List Json) : Json
  | obj (kvs : List (String × Json)) : Json

/-- Mirrors Python `isinstance(value, dict)`. -/
def Json.isDict : Json → Bool
  | .obj _ => true
  | _ => false

/-- Python `str.lower()`, modelled character-wise over the string's
characters. -/
def pyLower (s : String) : String :=
  (s.toList.map Char.toLower).asString

/-- Python `str.strip()`: remove leading and trailing whitespace. -/
def pyStrip (s : String) : String :=
  (((s.toList.dropWhile Char.isWhitespace).reverse.dropWhile Char.isWhitespace).reverse).asString

/-- `_normalize_field_name` from `mvp/services/metrics.py`:
`field.lower().strip()`. -/
def normalize_field_name (field : String) : String :=
  pyStrip (pyLower field)

mutual

/-- Field paths contributed by one JSON value in `_get_all_fields`
(`mvp/services/metrics.py`): recursion only enters dict values. -/
def jsonFields : Json → String → List String
  | Json.obj kvs, pre => objFields kvs pre
  | _, _ => []

/-- `_get_all_fields(data, prefix)` over the items of a dict, in iteration
order: each key's normalized dotted path is emitted, then dict values are
recursed into. -/
def objFields : List (String × Json) → String → List String
  | [], _ => []
  | (k, v) :: rest, pre =>
      let field_path := if pre = "" then k else pre ++ "." ++ k
      normalize_field_name field_path :: (jsonFields v field_path ++ objFields rest pre)

end

/-- The `set` returned by `_get_all_fields(data)` for a top-level dict. -/
def get_all_fields (data : List (String × Json)) : Finset String :=
  (objFields data "").toFinset

/-- Round-half-to-even to the nearest integer, Python's `round` tie rule. -/
def roundHalfEven (q : ℚ) : ℤ :=
  if q - ⌊q⌋ = 1/2 then (if Even ⌊q⌋ then ⌊q⌋ else ⌊q⌋ + 1) else round q

/-- Python `round(x, 6)`. -/
def roundTo6 (q : ℚ) : ℚ :=
  (roundHalfEven (q * 1000000) : ℚ) / 1000000

/-- The dictionary returned by `calculate_metrics`. -/
structure Metrics where
  «recall» : ℚ
  precision : ℚ
  f1 : ℚ
  missing_fields : List String
  extra_fields : List String
  total_gt_fields : ℕ
  total_output_fields : ℕ
  matched_fields : ℕ
  deriving DecidableEq, Repr

/-- `calculate_metrics(output, ground_truth)` from `mvp/services/metrics.py`. -/
def calculate_metrics (output ground_truth : List (String × Json)) : Metrics :=
  let output_fields := get_all_fields output
  let gt_fields := get_all_fields ground_truth
  let matched_fields := output_fields ∩ gt_fields
  let missing_fields := (gt_fields \ output_fields).sort (· ≤ ·)
  let extra_fields := (output_fields \ gt_fields).sort (· ≤ ·)
  let total_gt_fields := gt_fields.card
  let total_output_fields := output_fields.card
  let matched_count := matched_fields.card
  let «recall» : ℚ := if total_gt_fields > 0 then (matched_count : ℚ) / total_gt_fields else 0
  let precision : ℚ := if total_output_fields > 0 then (matched_count : ℚ) / total_output_fields else 0
  let f1 : ℚ := if precision + «recall» > 0 then 2 * (precision * «recall») / (precision + «recall») else 0
  { «recall» := roundTo6 «recall»
    precision := roundTo6 precision
    f1 := roundTo6 f1
    missing_fields := missing_fields
    extra_fields := extra_fields
    total_gt_fields := total_gt_fields
    total_output_fields := total_output_fields
    matched_fields := matched_count }

/-! ## Cost and token accounting (`mvp/services/metrics.py`) -/

/-- `MODEL_PRICING` from `mvp/services/metrics.py`, in source (dict insertion)
order; each entry maps a model id to (input price, output price) per 1K
tokens. -/
def MODEL_PRICING : List (String × ℚ × ℚ) :=
  [ ("gpt-4", 3/100, 6/100),
    ("gpt-4-turbo", 1/100, 3/100),
    ("gpt-4-turbo-preview", 1/100, 3/100),
    ("gpt-4o", 5/1000, 15/1000),
    ("gpt-4o-mini", 15/100000, 6/10000),
    ("gpt-3.5-turbo", 5/10000, 15/10000),
    ("gpt-3.5-turbo-0125", 5/10000, 15/10000),
    ("claude-3-opus", 15/1000, 75/1000),
    ("claude-3-opus-20240229", 15/1000, 75/1000),
    ("claude-3-sonnet", 3/1000, 15/1000),
    ("claude-3-sonnet-20240229", 3/1000, 15/1000),
    ("claude-3-haiku", 25/100000, 125/100000),
    ("claude-3-haiku-20240307", 25/100000, 125/100000),
    ("text-davinci-003", 2/100, 2/100) ]

/-- Python `s.startswith(pre)`. -/
def strStartsWith (s pre : String) : Bool :=
  pre.toList.isPrefixOf s.toList

/-- Python `needle in hay` on strings: contiguous-substring test. -/
def strContains (hay needle : String) : Bool :=
  go hay.toList
where
  go : List Char → Bool
    | [] => needle.toList.isEmpty
    | l@(_ :: t) => needle.toList.isPrefixOf l || go t

/-- `ModelConfig` from `mvp/models/config.py` (fields used by the accounting
and executor paths; `created_at` is a wall-clock timestamp in epoch seconds). -/
structure ModelConfig where
  id : String
  name : String
  provider : String
  model_id : String
  reasoning_effort : Option String := none
  temperature : ℚ := 7/10
  max_tokens : Option ℕ := none
  extra_params : List (String × Json) := []
  created_at : ℤ := 0

/-- The pricing lookup inside `calculate_cost`: exact `dict.get` first, then
the first entry (in table order) whose key is a prefix of, or contained in,
`model_id`. -/
def lookupPricing (model_id : String) : Option (ℚ × ℚ) :=
  match MODEL_PRICING.lookup model_id with
  | some p => some p
  | none =>
      (MODEL_PRICING.find? fun kv =>
        strStartsWith model_id kv.1 || strContains model_id kv.1).map (·.2)

/-- `calculate_cost(tokens, model_config)` from `mvp/services/metrics.py`. -/
def calculate_cost (tokens : List (String × ℚ)) (model_config : ModelConfig) : ℚ :=
  match lookupPricing model_config.model_id with
  | none => 0
  | some pricing =>
      let input_tokens := (tokens.lookup "input").getD 0
      let output_tokens := (tokens.lookup "output").getD 0
      let input_cost := input_tokens / 1000 * pricing.1
      let output_cost := output_tokens / 1000 * pricing.2
      roundTo6 (input_cost + output_cost)

/-- Python `int(x)` on a (rational-valued) number: truncation toward zero. -/
def pyInt (q : ℚ) : ℤ :=
  if 0 ≤ q then ⌊q⌋ else -⌊-q⌋

/-- The dictionary returned by `extract_token_usage`. -/
structure TokenUsage where
  input : ℤ
  output : ℤ
  total : ℤ
  deriving DecidableEq, Repr

/-- `extract_token_usage(response)` from `mvp/services/metrics.py`.  The
response is a dict whose "usage" entry (defaulting to `{}`) is a dict of
numeric token counts. -/
def extract_token_usage (response : List (String × List (String × ℚ))) : TokenUsage :=
  let usage := (response.lookup "usage").getD []
  if (usage.lookup "prompt_tokens").isSome then
    let input_tokens := (usage.lookup "prompt_tokens").getD 0
    let output_tokens := (usage.lookup "completion_tokens").getD 0
    let total_tokens := (usage.lookup "total_tokens").getD (input_tokens + output_tokens)
    ⟨pyInt input_tokens, pyInt output_tokens, pyInt total_tokens⟩
  else if (usage.lookup "input_tokens").isSome then
    let input_tokens := (usage.lookup "input_tokens").getD 0
    let output_tokens := (usage.lookup "output_tokens").getD 0
    let total_tokens := input_tokens + output_tokens
    ⟨pyInt input_tokens, pyInt output_tokens, pyInt total_tokens⟩
  else
    let input_tokens := (usage.lookup "input").getD 0
    let output_tokens := (usage.lookup "output").getD 0
    let total_tokens := (usage.lookup "total").getD (input_tokens + output_tokens)
    ⟨pyInt input_tokens, pyInt output_tokens, pyInt total_tokens⟩

/-! ## The Run record (`mvp/models/run.py`) -/

/-- `Run` from `mvp/models/run.py`.  Timestamps are epoch seconds (`ℤ`);
`status` is the status string. -/
structure Run where
  id : String
  prompt_id : String
  config_id : String
  document_name : String
  status : String
  started_at : ℤ
  completed_at : Option ℤ
  output : Option Json
  metrics : Option Json
  cost_usd : Option ℚ
  tokens : Option (List (String × ℚ))

/-- Pydantic construction of a `Run`: field validators run in declaration
order (`status` pattern/`validate_status`, then `validate_completion` on
`completed_at` against the already-validated `started_at`, then the
`ge=0.0` bound on `cost_usd`).  Direct attribute mutation of an existing
`Run` bypasses these checks (`validate_assignment` is not enabled). -/
def mkRun (id prompt_id config_id document_name : String) (status : String)
    (started_at : ℤ) (completed_at : Option ℤ) (output metrics : Option Json)
    (cost_usd : Option ℚ) (tokens : Option (List (String × ℚ))) : Except String Run :=
  if status = "pending" ∨ status = "running" ∨ status = "completed" ∨ status = "failed" then
    match completed_at with
    | some v =>
        if v < started_at then
          Except.error "completed_at must be after started_at"
        else
          match cost_usd with
          | some c =>
              if c < 0 then Except.error "cost_usd must be greater than or equal to 0"
              else Except.ok ⟨id, prompt_id, config_id, document_name, status,
                    started_at, some v, output, metrics, some c, tokens⟩
          | none => Except.ok ⟨id, prompt_id, config_id, document_name, status,
                    started_at, some v, output, metrics, none, tokens⟩
    | none =>
        match cost_usd with
        | some c =>
            if c < 0 then Except.error "cost_usd must be greater than or equal to 0"
            else Except.ok ⟨id, prompt_id, config_id, document_name, status,
                  started_at, none, output, metrics, some c, tokens⟩
        | none => Except.ok ⟨id, prompt_id, config_id, document_name, status,
                  started_at, none, output, metrics, none, tokens⟩
  else Except.error "status must be one of: pending, running, completed, failed"

/-! ## Ground-truth loading (`mvp/services/executor.py`) -/

/-- Errors surfaced by `load_ground_truth` and the underlying `load_json`. -/
inductive GtError where
  | fileNotFound (path : String)
  | decodeError (msg : String)
  | groundTruthNotFound (msg : String)
  deriving DecidableEq, Repr

/-- `load_json` (`mvp/services/storage.py`) over a modelled ground-truth
directory: a map from file name to parse result (`Except.error` models a
file present but holding invalid JSON, raising `json.JSONDecodeError`). -/
def load_json_file (files : List (String × Except String Json)) (path : String) :
    Except GtError Json :=
  match files.lookup path with
  | none => Except.error (GtError.fileNotFound path)
  | some (Except.error m) => Except.error (GtError.decodeError m)
  | some (Except.ok j) => Except.ok j

/-- `load_ground_truth(document_name)` from `mvp/services/executor.py`:
strips one trailing ".json" (Python `document_name[:-5]`), resolves
`{name}.json` in the ground-truth directory, and converts a
`FileNotFoundError` into `GroundTruthNotFoundError`; decode errors
propagate unchanged. -/
def load_ground_truth (files : List (String × Except String Json))
    (document_name : String) : Except GtError Json :=
  let name :=
    if (".json".toList).isSuffixOf document_name.toList then
      (document_name.toList.take (document_name.toList.length - 5)).asString
    else document_name
  let gt_path := name ++ ".json"
  match load_json_file files gt_path with
  | Except.error (GtError.fileNotFound _) =>
      Except.error (GtError.groundTruthNotFound
        ("Ground truth not found for document '" ++ name ++ "'"))
  | r => r

/-! ## The run executor (`mvp/services/executor.py`, `execute_run`) -/

/-- Kinds of `ExecutorError` subclasses raised in `executor.py`. -/
inductive ExecErrKind where
  | promptNotFound
  | configNotFound
  | documentNotFound
  | groundTruthNotFound
  | pipelineNotAvailable
  | schemaValidation
  | extraction
  | executor
  deriving DecidableEq, Repr

/-- A Python exception as observed by `execute_run`'s handlers: either an
`ExecutorError` (of some subclass) or any other exception.  The string is
`str(e)`. -/
inductive PyExc where
  | executorError (kind : ExecErrKind) (msg : String)
  | otherError (msg : String)
  deriving DecidableEq, Repr

/-- Python `str(e)` for a modelled exception. -/
def PyExc.message : PyExc → String
  | .executorError _ m => m
  | .otherError m => m

/-- The value returned by the external extraction collaborator
`_execute_extraction_with_pipeline` (fields used by `execute_run`). -/
structure ExtractionResult where
  output : List (String × Json)
  tokens : List (String × ℚ)
  latency_ms : ℤ

/-- Environment of one `execute_run` call: results of the external
collaborators (storage reads, document read, extraction pipeline, recall
scorer) and of the `datetime.utcnow()` reads.  `pipelineAvailable` models
the module-level `PIPELINE_AVAILABLE` flag. -/
structure ExecEnv where
  existingRun : Option Run
  promptRes : Except PyExc Unit
  configRes : Except PyExc ModelConfig
  documentRes : Except PyExc String
  groundTruthRes : Except PyExc (List (String × Json))
  extractRes : Except PyExc ExtractionResult
  pipelineAvailable : Bool
  recallMetricsRes : Except PyExc Json
  tCreate : ℤ
  tFail : ℤ
  tStart : ℤ
  tEnd : ℤ

/-- The persisted runs directory: `_save_run` writes `{run.id}.json`,
overwriting; `lookup` sees the most recent write. -/
structure Store where
  runs : List (String × Run)

/-- `_save_run(run)` (`mvp/services/executor.py`). -/
def saveRun (st : Store) (r : Run) : Store :=
  ⟨(r.id, r) :: st.runs⟩

/-- `uuid.UUID(id_str).hex` applied only to 36-character dashed UUIDs in
`execute_run._to_hex`: modelled by its observable effect, removing dashes
and lowercasing. -/
def toHexId (s : String) : String :=
  if s.length = 36 then pyLower ((s.toList.filter (fun c => c ≠ '-')).asString) else s

/-- Step 1 of `execute_run`: resolve prompt, config, document content and
ground truth, in that order; the first exception aborts. -/
def resolveResources (env : ExecEnv) :
    Except PyExc (ModelConfig × String × List (String × Json)) :=
  match env.promptRes with
  | Except.error e => Except.error e
  | Except.ok _ =>
    match env.configRes with
    | Except.error e => Except.error e
    | Except.ok config =>
      match env.documentRes with
      | Except.error e => Except.error e
      | Except.ok document_content =>
        match env.groundTruthRes with
        | Except.error e => Except.error e
        | Except.ok ground_truth => Except.ok (config, document_content, ground_truth)

/-- Encode a `Metrics` record as the JSON dict stored on the run. -/
def Metrics.toJson (m : Metrics) : Json :=
  Json.obj
    [ ("recall", Json.num m.«recall»),
      ("precision", Json.num m.precision),
      ("f1", Json.num m.f1),
      ("missing_fields", Json.arr (m.missing_fields.map Json.str)),
      ("extra_fields", Json.arr (m.extra_fields.map Json.str)),
      ("total_gt_fields", Json.num m.total_gt_fields),
      ("total_output_fields", Json.num m.total_output_fields),
      ("matched_fields", Json.num m.matched_fields) ]

/-- Append the latency entry (`metrics["latency_ms"] = result["latency_ms"]`). -/
def withLatency (j : Json) (latency : ℤ) : Json :=
  match j with
  | Json.obj kvs => Json.obj (kvs ++ [("latency_ms", Json.num latency)])
  | other => other

/-- Steps 3-5 of `execute_run`, the body of its `try` block up to the final
field updates: extraction, metric scoring (external recall scorer when the
pipeline is importable, else the local comparator `calculate_metrics`), and
cost calculation.  Returns the output, metrics JSON, tokens and cost, or
the message of the first exception raised. -/
def runSteps (env : ExecEnv) (config : ModelConfig)
    (ground_truth : List (String × Json)) :
    Except String (List (String × Json) × Json × List (String × ℚ) × ℚ) :=
  match env.extractRes with
  | Except.error e => Except.error e.message
  | Except.ok result =>
    let metricsRes : Except PyExc Json :=
      if env.pipelineAvailable then env.recallMetricsRes
      else Except.ok (calculate_metrics result.output ground_truth).toJson
    match metricsRes with
    | Except.error e => Except.error e.message
    | Except.ok mjson =>
      let metrics := withLatency mjson result.latency_ms
      let cost := calculate_cost result.tokens config
      Except.ok (result.output, metrics, result.tokens, cost)

/-- `execute_run(run_id, prompt_id, config_id, document_name)` from
`mvp/services/executor.py`: load-or-create the run record; resolve
resources (typed `ExecutorError`s re-raise unchanged, any other exception
marks the run failed, persists it and raises `ExecutorError`); transition
to running and persist; run extraction/scoring/cost (any exception marks
the run failed with `output = {"error": str(e)}`, persists and re-raises as
`ExtractionError`); on success persist the completed run.  Returns the
Python return-or-raise outcome together with the final store.
`loadOrCreateRun` is step 0: reuse the stored run if `_load_run` finds one,
else build a fresh pending record (new ids pass through `_to_hex`). -/
def loadOrCreateRun (env : ExecEnv) (run_id prompt_id config_id document_name : String) : Run :=
  match env.existingRun with
  | some r => r
  | none =>
      { id := toHexId run_id
        prompt_id := toHexId prompt_id
        config_id := toHexId config_id
        document_name := document_name
        status := "pending"
        started_at := env.tCreate
        completed_at := none
        output := none
        metrics := none
        cost_usd := none
        tokens := none }

def execute_run (env : ExecEnv) (run_id prompt_id config_id document_name : String)
    (st : Store) : Except PyExc Run × Store :=
  let run0 : Run := loadOrCreateRun env run_id prompt_id config_id document_name
  match resolveResources env with
  | Except.error e =>
      match e with
      | PyExc.executorError k m => (Except.error (PyExc.executorError k m), st)
      | PyExc.otherError m =>
          let runF := { run0 with status := "failed", completed_at := some env.tFail }
          (Except.error (PyExc.executorError ExecErrKind.executor
              ("Failed to load resources: " ++ m)),
           saveRun st runF)
  | Except.ok (config, _document_content, ground_truth) =>
      let run1 := { run0 with status := "running", started_at := env.tStart }
      let st1 := saveRun st run1
      match runSteps env config ground_truth with
      | Except.error msg =>
          let runF := { run1 with
            status := "failed"
            completed_at := some env.tEnd
            output := some (Json.obj [("error", Json.str msg)]) }
          (Except.error (PyExc.executorError ExecErrKind.extraction
              ("Extraction failed: " ++ msg)),
           saveRun st1 runF)
      | Except.ok (output, metrics, tokens, cost) =>
          let run2 := { run1 with
            output := some (Json.obj output)
            metrics := some metrics
            tokens := some tokens
            cost_usd := some cost
            status := "completed"
            completed_at := some env.tEnd }
          (Except.ok run2, saveRun st1 run2)

/-- Removing one (top-level) field from a dict, `del d[field]` on the ground
truth passed to the comparator. -/
def removeField (d : List (String × Json)) (field : String) : List (String × Json) :=
  d.filter fun p => p.1 != field

/-- A concrete OpenAI config with an exactly-priced model id. -/
def cfgGpt4 : ModelConfig :=
  { id := "c1", name := "Test", provider := "openai", model_id := "gpt-4" }

/-- A concrete config whose model id only matches the pricing table through
the prefix fallback ("gpt-4-0613" starts with "gpt-4", the first table key). -/
def cfgGpt4_0613 : ModelConfig :=
  { id := "c2", name := "Test", provider := "openai", model_id := "gpt-4-0613" }

/-- A concrete config with a model id matching no pricing entry at all. -/
def cfgUnknown : ModelConfig :=
  { id := "c3", name := "Test", provider := "openai", model_id := "mystery-model" }

/-- Environment of a run whose ground-truth resolution raises the typed
`GroundTruthNotFoundError` (the missing-file scenario). -/
def envGtMissing : ExecEnv :=
  { existingRun := none
    promptRes := Except.ok ()
    configRes := Except.ok cfgGpt4
    documentRes := Except.ok "document text"
    groundTruthRes := Except.error (PyExc.executorError ExecErrKind.groundTruthNotFound
      "Ground truth not found for document 'doc1'")
    extractRes := Except.error (PyExc.otherError "unreachable")
    pipelineAvailable := false
    recallMetricsRes := Except.ok Json.null
    tCreate := 0, tFail := 1, tStart := 2, tEnd := 3 }

/-- Environment of a run whose ground-truth file exists but holds invalid
JSON: `json.JSONDecodeError` is not an `ExecutorError`. -/
def envGtDecode : ExecEnv :=
  { envGtMissing with
    groundTruthRes := Except.error (PyExc.otherError
      "Expecting value: line 1 column 1 (char 0)") }

/-- Environment of a run that resolves all resources but whose extraction
step raises (here: the pipeline import failed). -/
def envExtractFail : ExecEnv :=
  { envGtMissing with
    groundTruthRes := Except.ok [("a", Json.num 1)]
    extractRes := Except.error (PyExc.executorError ExecErrKind.pipelineNotAvailable
      "Extraction pipeline not available. Import error: boom") }

/-! ## Helper lemmas -/

theorem roundTo6_zero : roundTo6 0 = 0 := by
  norm_num [roundTo6, roundHalfEven, round_eq]

theorem roundTo6_one : roundTo6 1 = 1 := by
  norm_num [roundTo6, roundHalfEven, round_eq]

theorem roundHalfEven_bounds (q : ℚ) :
    ⌊q⌋ ≤ roundHalfEven q ∧ roundHalfEven q ≤ ⌊q⌋ + 1 := by
  unfold roundHalfEven
  split
  · split
    · exact ⟨le_refl _, by omega⟩
    · exact ⟨by omega, by omega⟩
  · rw [round_eq]
    constructor
    · exact Int.floor_le_floor (by linarith)
    · have h1 : ⌊q + 1/2⌋ ≤ ⌊q + 1⌋ := Int.floor_le_floor (by linarith)
      have h2 : ⌊q + 1⌋ = ⌊q⌋ + 1 := by
        exact_mod_cast Int.floor_add_int q 1
      omega

theorem roundHalfEven_le_of_le {x y : ℚ} (h : x ≤ y) :
    roundHalfEven x ≤ roundHalfEven y := by
  have hxy : ⌊x⌋ ≤ ⌊y⌋ := Int.floor_le_floor h
  rcases lt_or_eq_of_le hxy with hlt | heq
  · have h1 := (roundHalfEven_bounds x).2
    have h2 := (roundHalfEven_bounds y).1
    omega
  · have hfx : (⌊x⌋ : ℚ) ≤ x := Int.floor_le x
    have hfy : y < ⌊y⌋ + 1 := Int.lt_floor_add_one y
    unfold roundHalfEven
    by_cases hx2 : x - ⌊x⌋ = 1/2 <;> by_cases hy2 : y - ⌊y⌋ = 1/2
    · have hxe : x = y := by
        have : (⌊x⌋ : ℚ) = (⌊y⌋ : ℚ) := by exact_mod_cast heq
        linarith
      rw [hx2, hxe, heq] at *
      simp [hy2]
    · simp only [hx2, hy2, if_true, if_false]
      have hge : (⌊y⌋ : ℚ) + 1 ≤ y + 1/2 := by
        have : (⌊x⌋ : ℚ) = (⌊y⌋ : ℚ) := by exact_mod_cast heq
        linarith
      have hr : ⌊y⌋ + 1 ≤ round y := by
        rw [round_eq]
        exact Int.le_floor.mpr (by push_cast; linarith)
      rw [heq] at *
      split <;> omega
    · simp only [hx2, hy2, if_true, if_false]
      have hlt : x + 1/2 < ⌊x⌋ + 1 := by
        have hcast : (⌊x⌋ : ℚ) = (⌊y⌋ : ℚ) := by exact_mod_cast heq
        have hy' : y = (⌊y⌋ : ℚ) + 1/2 := by linarith
        have : x ≤ (⌊x⌋ : ℚ) + 1/2 := by rw [hcast]; linarith
        have hne : x ≠ (⌊x⌋ : ℚ) + 1/2 := fun hc => hx2 (by linarith)
        have : x < (⌊x⌋ : ℚ) + 1/2 := lt_of_le_of_ne this hne
        linarith
      have hr : round x ≤ ⌊x⌋ := by
        rw [round_eq]
        have : ⌊x + 1/2⌋ < ⌊x⌋ + 1 := Int.floor_lt.mpr (by push_cast; linarith)
        omega
      rw [heq] at hr
      split <;> omega
    · simp only [hx2, hy2, if_false]
      rw [round_eq, round_eq]
      exact Int.floor_le_floor (by linarith)

theorem roundTo6_le_of_le {x y : ℚ} (h : x ≤ y) : roundTo6 x ≤ roundTo6 y := by
  unfold roundTo6
  have h1 : roundHalfEven (x * 1000000) ≤ roundHalfEven (y * 1000000) :=
    roundHalfEven_le_of_le (by linarith)
  have h2 : ((roundHalfEven (x * 1000000) : ℤ) : ℚ) ≤
      ((roundHalfEven (y * 1000000) : ℤ) : ℚ) := by exact_mod_cast h1
  exact div_le_div_of_nonneg_right h2 (by norm_num) |>.trans_eq rfl

theorem jsonFields_of_not_dict (v : Json) (h : v.isDict = false) (pre : String) :
    jsonFields v pre = [] := by
  cases v <;> simp_all [jsonFields, Json.isDict]

theorem objFields_filter_subset (l : List (String × Json)) (k pre : String) :
    ∀ x, x ∈ objFields (l.filter fun p => p.1 != k) pre → x ∈ objFields l pre := by
  induction l with
  | nil => intro x hx; simpa using hx
  | cons hd tl ih =>
      obtain ⟨k', v⟩ := hd
      intro x hx
      rw [List.filter_cons] at hx
      by_cases hk : (k' != k) = true
      · rw [if_pos hk] at hx
        simp only [objFields, List.mem_cons, List.mem_append] at hx ⊢
        rcases hx with h | h | h
        · exact Or.inl h
        · exact Or.inr (Or.inl h)
        · exact Or.inr (Or.inr (ih x h))
      · rw [if_neg hk] at hx
        simp only [objFields, List.mem_cons, List.mem_append]
        exact Or.inr (Or.inr (ih x hx))

theorem get_all_fields_removeField_subset (d : List (String × Json)) (field : String) :
    get_all_fields (removeField d field) ⊆ get_all_fields d := by
  intro x hx
  simp only [get_all_fields, List.mem_toFinset] at hx ⊢
  exact objFields_filter_subset d field "" x hx

theorem get_all_fields_cons_nonempty (k : String) (v : Json) (l : List (String × Json)) :
    (get_all_fields ((k, v) :: l)).Nonempty := by
  refine ⟨normalize_field_name k, ?_⟩
  simp [get_all_fields, objFields]

/-! ## Claims about the comparator -/

/-- C4: `calculate_metrics({}, {})` returns recall, precision and f1 all
`0.0`; and for every output mapping paired with an empty ground truth the
returned recall and precision are `0.0` — the zero-denominator cases are
guarded, no division by zero occurs. -/
theorem C4_empty_ground_truth (output : List (String × Json)) :
    (calculate_metrics output []).«recall» = 0 ∧
    (calculate_metrics output []).precision = 0 ∧
    (calculate_metrics [] []).«recall» = 0 ∧
    (calculate_metrics [] []).precision = 0 ∧
    (calculate_metrics [] []).f1 = 0 := by
  have hgt : get_all_fields [] = ∅ := rfl
  simp only [calculate_metrics, hgt, Finset.inter_empty, Finset.card_empty,
    Nat.cast_zero, zero_div, ite_self, gt_iff_lt, lt_self_iff_false, if_false,
    add_zero, roundTo6_zero]
  norm_num [roundTo6_zero]

/-- C2 counterexample: the claim quantifies over every nested mapping `D`,
but for the empty mapping `calculate_metrics({}, {})` returns recall `0.0`,
not `1.0`. -/
theorem C2_counterexample :
    (calculate_metrics [] []).«recall» = 0 ∧ (calculate_metrics [] []).«recall» ≠ 1 := by
  have hgt : get_all_fields [] = ∅ := rfl
  have h : (calculate_metrics [] []).«recall» = 0 := by
    simp only [calculate_metrics, hgt, Finset.card_empty, gt_iff_lt,
      lt_self_iff_false, if_false, roundTo6_zero]
  exact ⟨h, by rw [h]; norm_num⟩

/-- C2 (amended): for every NON-empty nested mapping `D`,
`calculate_metrics(D, D)` returns recall = precision = f1 = `1.0` and empty
`missing_fields` and `extra_fields` lists. -/
theorem C2_roundtrip (D : List (String × Json)) (h : D ≠ []) :
    (calculate_metrics D D).«recall» = 1 ∧
    (calculate_metrics D D).precision = 1 ∧
    (calculate_metrics D D).f1 = 1 ∧
    (calculate_metrics D D).missing_fields = [] ∧
    (calculate_metrics D D).extra_fields = [] := by
  obtain ⟨⟨k, v⟩, l, rfl⟩ : ∃ p l, D = p :: l := by
    cases D with
    | nil => exact absurd rfl h
    | cons p l => exact ⟨p, l, rfl⟩
  have hpos : 0 < (get_all_fields ((k, v) :: l)).card :=
    Finset.card_pos.mpr (get_all_fields_cons_nonempty k v l)
  have hc : ((get_all_fields ((k, v) :: l)).card : ℚ) ≠ 0 :=
    Nat.cast_ne_zero.mpr hpos.ne'
  simp only [calculate_metrics, Finset.inter_self, Finset.sdiff_self,
    Finset.sort_empty, gt_iff_lt, hpos, if_true, div_self hc]
  norm_num [roundTo6_one]

/-- C3 counterexample: with output `{"a": 1}` and ground truth
`{"a": 1, "b": 2}`, removing field `"a"` from the ground truth DECREASES
precision (1.0 to 0.0), and removing field `"b"` INCREASES recall (0.5 to
1.0) — the claim asserts exactly the opposite directions. -/
theorem C3_counterexample :
    (calculate_metrics [("a", Json.num 1)]
        (removeField [("a", Json.num 1), ("b", Json.num 2)] "a")).precision
      < (calculate_metrics [("a", Json.num 1)]
          [("a", Json.num 1), ("b", Json.num 2)]).precision ∧
    (calculate_metrics [("a", Json.num 1)]
        [("a", Json.num 1), ("b", Json.num 2)]).«recall»
      < (calculate_metrics [("a", Json.num 1)]
          (removeField [("a", Json.num 1), ("b", Json.num 2)] "b")).«recall» := by
  have e1 : removeField [("a", Json.num 1), ("b", Json.num 2)] "a" = [("b", Json.num 2)] := rfl
  have e2 : removeField [("a", Json.num 1), ("b", Json.num 2)] "b" = [("a", Json.num 1)] := rfl
  rw [e1, e2]
  have h1 : (get_all_fields [("a", Json.num 1)] ∩ get_all_fields [("b", Json.num 2)]).card = 0 := by
    decide
  have h2 : (get_all_fields [("b", Json.num 2)]).card = 1 := by decide
  have h3 : (get_all_fields [("a", Json.num 1)]).card = 1 := by decide
  have h4 : (get_all_fields [("a", Json.num 1)]
      ∩ get_all_fields [("a", Json.num 1), ("b", Json.num 2)]).card = 1 := by decide
  have h5 : (get_all_fields [("a", Json.num 1), ("b", Json.num 2)]).card = 2 := by decide
  have h6 : (get_all_fields [("a", Json.num 1)] ∩ get_all_fields [("a", Json.num 1)]).card = 1 := by
    decide
  constructor
  · simp only [calculate_metrics, h1, h2, h3, h4, h5]
    norm_num [roundTo6, roundHalfEven, round_eq]
  · simp only [calculate_metrics, h4, h5, h3, h6]
    norm_num [roundTo6, roundHalfEven, round_eq]

/-- C3 (amended): for every fixed output and ground truth, removing one
field from the ground truth never INCREASES the returned precision (recall
may move in either direction, as the counterexample shows). -/
theorem C3_precision_antitone (output gt : List (String × Json)) (field : String) :
    (calculate_metrics output (removeField gt field)).precision ≤
      (calculate_metrics output gt).precision := by
  have hm : (get_all_fields output ∩ get_all_fields (removeField gt field)).card ≤
      (get_all_fields output ∩ get_all_fields gt).card :=
    Finset.card_le_card
      (Finset.inter_subset_inter (Finset.Subset.refl _)
        (get_all_fields_removeField_subset gt field))
  simp only [calculate_metrics]
  apply roundTo6_le_of_le
  by_cases hpos : 0 < (get_all_fields output).card
  · simp only [gt_iff_lt, hpos, if_true]
    have hc : (0 : ℚ) < (get_all_fields output).card := by exact_mod_cast hpos
    exact (div_le_div_iff_of_pos_right hc).mpr (by exact_mod_cast hm)
  · simp [hpos]

/-- C8 counterexample: the claim quantifies over arbitrary values `v`; for
the dict value `v = {"x": 1}` the output contributes the extra path
`"name .x"`, so precision is 0.5, not 1.0 (matched_fields is still 1). -/
theorem C8_counterexample :
    (calculate_metrics [("Name ", Json.obj [("x", Json.num 1)])]
        [(" name", Json.num 1)]).matched_fields = 1 ∧
    (calculate_metrics [("Name ", Json.obj [("x", Json.num 1)])]
        [(" name", Json.num 1)]).precision = 1/2 ∧
    (calculate_metrics [("Name ", Json.obj [("x", Json.num 1)])]
        [(" name", Json.num 1)]).precision ≠ 1 := by
  have h1 : (get_all_fields [("Name ", Json.obj [("x", Json.num 1)])]
      ∩ get_all_fields [(" name", Json.num 1)]).card = 1 := by decide
  have h2 : (get_all_fields [("Name ", Json.obj [("x", Json.num 1)])]).card = 2 := by decide
  have h3 : (get_all_fields [(" name", Json.num 1)]).card = 1 := by decide
  refine ⟨?_, ?_, ?_⟩
  · simp only [calculate_metrics, h1]
  · simp only [calculate_metrics, h1, h2, h3]
    norm_num [roundTo6, roundHalfEven, round_eq]
  · simp only [calculate_metrics, h1, h2, h3]
    norm_num [roundTo6, roundHalfEven, round_eq]

/-- C8 (amended): for any NON-dict leaf values `v` and `v2`,
`calculate_metrics({"Name ": v}, {" name": v2})` counts the `name` field as
matched — matched_fields = 1 and recall = precision = 1.0 — regardless of
whether `v` equals `v2`. -/
theorem C8_case_whitespace_invariance (v v2 : Json)
    (hv : v.isDict = false) (hv2 : v2.isDict = false) :
    (calculate_metrics [("Name ", v)] [(" name", v2)]).matched_fields = 1 ∧
    (calculate_metrics [("Name ", v)] [(" name", v2)]).«recall» = 1 ∧
    (calculate_metrics [("Name ", v)] [(" name", v2)]).precision = 1 := by
  have hn1 : normalize_field_name "Name " = "name" := by decide
  have hn2 : normalize_field_name " name" = "name" := by decide
  have h1 : get_all_fields [("Name ", v)] = {"name"} := by
    simp [get_all_fields, objFields, jsonFields_of_not_dict v hv, hn1]
  have h2 : get_all_fields [(" name", v2)] = {"name"} := by
    simp [get_all_fields, objFields, jsonFields_of_not_dict v2 hv2, hn2]
  simp only [calculate_metrics, h1, h2, Finset.inter_self, Finset.card_singleton]
  norm_num [roundTo6_one]

/-- Witness for C8 at concrete leaf values `v = 1`, `v2 = "x"` (unequal). -/
theorem C8_witness :
    (Json.num 1).isDict = false ∧ (Json.str "x").isDict = false ∧
    (calculate_metrics [("Name ", Json.num 1)] [(" name", Json.str "x")]).matched_fields = 1 ∧
    (calculate_metrics [("Name ", Json.num 1)] [(" name", Json.str "x")]).«recall» = 1 ∧
    (calculate_metrics [("Name ", Json.num 1)] [(" name", Json.str "x")]).precision = 1 := by
  obtain ⟨a, b, c⟩ := C8_case_whitespace_invariance (Json.num 1) (Json.str "x") rfl rfl
  exact ⟨rfl, rfl, a, b, c⟩

/-- Witness for C2 at the concrete mapping `{"a": {"b": 1}}`. -/
theorem C2_witness :
    ([("a", Json.obj [("b", Json.num 1)])] : List (String × Json)) ≠ [] ∧
    (calculate_metrics [("a", Json.obj [("b", Json.num 1)])]
        [("a", Json.obj [("b", Json.num 1)])]).«recall» = 1 ∧
    (calculate_metrics [("a", Json.obj [("b", Json.num 1)])]
        [("a", Json.obj [("b", Json.num 1)])]).missing_fields = [] := by
  have h := C2_roundtrip [("a", Json.obj [("b", Json.num 1)])] (by simp)
  exact ⟨by simp, h.1, h.2.2.2.1⟩

/-! ## Claims about cost and token accounting -/

/-- C6: `calculate_cost` looks up `model_id` in the pricing table by exact
match first, then falls back to the first prefix/substring match in table
iteration order; a found entry prices the tokens as
`(input/1000)*input_price + (output/1000)*output_price` rounded to 6
decimals, and no match yields `0.0` without an error. -/
theorem C6_cost_lookup (tokens : List (String × ℚ)) (cfg : ModelConfig) :
    (∀ p : ℚ × ℚ, MODEL_PRICING.lookup cfg.model_id = some p →
        calculate_cost tokens cfg =
          roundTo6 ((tokens.lookup "input").getD 0 / 1000 * p.1 +
            (tokens.lookup "output").getD 0 / 1000 * p.2)) ∧
    (MODEL_PRICING.lookup cfg.model_id = none →
      (∀ kv : String × ℚ × ℚ,
          (MODEL_PRICING.find? fun e =>
            strStartsWith cfg.model_id e.1 || strContains cfg.model_id e.1) = some kv →
          calculate_cost tokens cfg =
            roundTo6 ((tokens.lookup "input").getD 0 / 1000 * kv.2.1 +
              (tokens.lookup "output").getD 0 / 1000 * kv.2.2)) ∧
      ((MODEL_PRICING.find? fun e =>
            strStartsWith cfg.model_id e.1 || strContains cfg.model_id e.1) = none →
          calculate_cost tokens cfg = 0)) := by
  refine ⟨fun p hp => ?_, fun hnone => ⟨fun kv hkv => ?_, fun hfind => ?_⟩⟩
  · simp [calculate_cost, lookupPricing, hp]
  · simp [calculate_cost, lookupPricing, hnone, hkv]
  · simp [calculate_cost, lookupPricing, hnone, hfind]

/-- Witness for C6: exact match (`gpt-4`, $0.12 for 2000 in / 1000 out),
prefix fallback (`gpt-4-0613` prices like `gpt-4`), and an unknown model
costing `0.0`. -/
theorem C6_witness :
    calculate_cost [("input", 2000), ("output", 1000)] cfgGpt4 = 12/100 ∧
    calculate_cost [("input", 2000), ("output", 1000)] cfgGpt4_0613 = 12/100 ∧
    calculate_cost [("input", 2000), ("output", 1000)] cfgUnknown = 0 := by
  refine ⟨?_, ?_, ?_⟩
  · have h := (C6_cost_lookup [("input", 2000), ("output", 1000)] cfgGpt4).1
      (3/100, 6/100) rfl
    rw [h, show (List.lookup "input" [("input", (2000:ℚ)), ("output", (1000:ℚ))]) = some 2000 from rfl,
      show (List.lookup "output" [("input", (2000:ℚ)), ("output", (1000:ℚ))]) = some 1000 from rfl]
    norm_num [roundTo6, roundHalfEven, round_eq]
  · have h := ((C6_cost_lookup [("input", 2000), ("output", 1000)] cfgGpt4_0613).2
      rfl).1 ("gpt-4", 3/100, 6/100) rfl
    rw [h, show (List.lookup "input" [("input", (2000:ℚ)), ("output", (1000:ℚ))]) = some 2000 from rfl,
      show (List.lookup "output" [("input", (2000:ℚ)), ("output", (1000:ℚ))]) = some 1000 from rfl]
    norm_num [roundTo6, roundHalfEven, round_eq]
  · exact ((C6_cost_lookup [("input", 2000), ("output", 1000)] cfgUnknown).2 rfl).2 rfl

/-- C7 counterexample: for the fallback shape the code defaults `total` to
`input + output`, not to `0`: `{"usage": {"input": 5}}` yields total 5,
where the claim's "input/output/total defaulting to 0" predicts total 0. -/
theorem C7_counterexample :
    extract_token_usage [("usage", [("input", 5)])] = ⟨5, 0, 5⟩ ∧
    (extract_token_usage [("usage", [("input", 5)])]).total ≠ 0 := by
  have h : extract_token_usage [("usage", [("input", 5)])] = ⟨5, 0, 5⟩ := by
    simp [extract_token_usage, List.lookup, pyInt]
  exact ⟨h, by rw [h]; norm_num⟩

/-- C7 (amended): `extract_token_usage` maps the OpenAI shape taking total
from `total_tokens`; maps the Anthropic shape with total = input + output;
for any other shape falls back to keys `input`/`output` defaulting to 0
and `total` defaulting to input + output — so `{}` yields all zeros; all
outputs are truncated to integers. -/
theorem C7_token_usage_shapes (p c t : ℚ) (usage : List (String × ℚ))
    (h1 : usage.lookup "prompt_tokens" = none)
    (h2 : usage.lookup "input_tokens" = none) :
    extract_token_usage
        [("usage", [("prompt_tokens", p), ("completion_tokens", c), ("total_tokens", t)])]
      = ⟨pyInt p, pyInt c, pyInt t⟩ ∧
    extract_token_usage [("usage", [("input_tokens", p), ("output_tokens", c)])]
      = ⟨pyInt p, pyInt c, pyInt (p + c)⟩ ∧
    extract_token_usage [("usage", usage)] =
      ⟨pyInt ((usage.lookup "input").getD 0),
       pyInt ((usage.lookup "output").getD 0),
       pyInt ((usage.lookup "total").getD
         ((usage.lookup "input").getD 0 + (usage.lookup "output").getD 0))⟩ ∧
    extract_token_usage [] = ⟨0, 0, 0⟩ := by
  refine ⟨rfl, rfl, ?_, ?_⟩
  · simp [extract_token_usage, List.lookup, h1, h2]
  · simp [extract_token_usage, List.lookup, pyInt]

/-- Witness for C7 at the spec's three example responses. -/
theorem C7_witness :
    extract_token_usage
        [("usage", [("prompt_tokens", 100), ("completion_tokens", 50), ("total_tokens", 150)])]
      = ⟨100, 50, 150⟩ ∧
    extract_token_usage [("usage", [("input_tokens", 200), ("output_tokens", 100)])]
      = ⟨200, 100, 300⟩ ∧
    extract_token_usage [] = ⟨0, 0, 0⟩ := by
  obtain ⟨ha, hb, -, hd⟩ := C7_token_usage_shapes 100 50 150 [] rfl rfl
  refine ⟨?_, ?_, hd⟩
  · rw [ha]
    norm_num [pyInt]
  · have := (C7_token_usage_shapes 200 100 0 [] rfl rfl).2.1
    rw [this]
    norm_num [pyInt]

/-! ## Claims about the Run record and the executor -/

/-- C9: every validly constructed `Run` with `completed_at` present
satisfies `completed_at ≥ started_at`, and construction with
`completed_at < started_at` is rejected with a validation error. -/
theorem C9_completed_at_ge_started_at :
    (∀ id pid cid dn st s ca o m cu tk r,
        mkRun id pid cid dn st s ca o m cu tk = Except.ok r →
        ∀ t, r.completed_at = some t → r.started_at ≤ t) ∧
    (∀ id pid cid dn st s t o m cu tk, t < s →
        ∃ msg, mkRun id pid cid dn st s (some t) o m cu tk = Except.error msg) := by
  constructor
  · intro id pid cid dn st s ca o m cu tk r h t ht
    by_cases hst : st = "pending" ∨ st = "running" ∨ st = "completed" ∨ st = "failed"
    · cases ca with
      | some v =>
          cases cu with
          | some cval =>
              simp only [mkRun, if_pos hst] at h
              by_cases hvs : v < s
              · rw [if_pos hvs] at h
                exact Except.noConfusion h
              · rw [if_neg hvs] at h
                by_cases hcv : cval < 0
                · rw [if_pos hcv] at h
                  exact Except.noConfusion h
                · rw [if_neg hcv] at h
                  injection h with h'
                  subst h'
                  have hvt : v = t := Option.some.inj ht
                  have hsv : s ≤ v := le_of_not_lt hvs
                  show s ≤ t
                  omega
          | none =>
              simp only [mkRun, if_pos hst] at h
              by_cases hvs : v < s
              · rw [if_pos hvs] at h
                exact Except.noConfusion h
              · rw [if_neg hvs] at h
                injection h with h'
                subst h'
                have hvt : v = t := Option.some.inj ht
                have hsv : s ≤ v := le_of_not_lt hvs
                show s ≤ t
                omega
      | none =>
          cases cu with
          | some cval =>
              simp only [mkRun, if_pos hst] at h
              by_cases hcv : cval < 0
              · rw [if_pos hcv] at h
                exact Except.noConfusion h
              · rw [if_neg hcv] at h
                injection h with h'
                subst h'
                exact Option.noConfusion ht
          | none =>
              simp only [mkRun, if_pos hst] at h
              injection h with h'
              subst h'
              exact Option.noConfusion ht
    · simp only [mkRun, if_neg hst] at h
      exact Except.noConfusion h
  · intro id pid cid dn st s t o m cu tk hlt
    by_cases hst : st = "pending" ∨ st = "running" ∨ st = "completed" ∨ st = "failed"
    · refine ⟨"completed_at must be after started_at", ?_⟩
      simp only [mkRun, if_pos hst, if_pos hlt]
    · refine ⟨"status must be one of: pending, running, completed, failed", ?_⟩
      simp only [mkRun, if_neg hst]

/-- Witness for C9: a run built with `started_at = 3`, `completed_at = 5`
satisfies the ordering; construction with `completed_at = 2 < 3` errors. -/
theorem C9_witness :
    (3 : ℤ) ≤ 5 ∧
    (∃ msg, mkRun "r" "p" "c" "d" "completed" 3 (some 2) none none none none =
      Except.error msg) := by
  constructor
  · exact C9_completed_at_ge_started_at.1 "r" "p" "c" "d" "completed" 3 (some 5)
      none none none none
      ⟨"r", "p", "c", "d", "completed", 3, some 5, none, none, none, none⟩ rfl 5 rfl
  · exact C9_completed_at_ge_started_at.2 "r" "p" "c" "d" "completed" 3 2
      none none none none (by norm_num)

/-- C10: `load_ground_truth` strips one trailing ".json" before resolving
`{name}.json`, so `contract_001` and `contract_001.json` load the same
file; and a missing file surfaces as `GroundTruthNotFoundError`, not a
bare file-not-found. -/
theorem C10_ground_truth_json_suffix
    (files : List (String × Except String Json)) (name : String)
    (h : (".json".toList).isSuffixOf name.toList = false) :
    load_ground_truth files (name ++ ".json") = load_ground_truth files name ∧
    (files.lookup "contract_001.json" = none →
      load_ground_truth files "contract_001" =
        Except.error (GtError.groundTruthNotFound
          "Ground truth not found for document 'contract_001'") ∧
      load_ground_truth files "contract_001.json" =
        Except.error (GtError.groundTruthNotFound
          "Ground truth not found for document 'contract_001'")) := by
  have hdata : (name ++ ".json").toList = name.toList ++ ".json".toList := by
    simp [String.toList]
  have hsuffix : (".json".toList).isSuffixOf (name ++ ".json").toList = true := by
    rw [hdata]
    simp [List.isSuffixOf]
  have h5 : ".json".toList.length = 5 := rfl
  have hstrip :
      ((name ++ ".json").toList.take ((name ++ ".json").toList.length - 5)).asString
        = name := by
    rw [hdata]
    have hlen : (name.toList ++ ".json".toList).length - 5 = name.toList.length := by
      rw [List.length_append, h5]
      omega
    rw [hlen, List.take_left, String.asString_toList]
  constructor
  · simp only [load_ground_truth, hsuffix, h, Bool.false_eq_true, if_false, if_true,
      hstrip]
  · intro hnone
    have hc1 : (".json".toList).isSuffixOf "contract_001".toList = false := rfl
    have hc2 : (".json".toList).isSuffixOf "contract_001.json".toList = true := rfl
    have hs2 :
        ("contract_001.json".toList.take ("contract_001.json".toList.length - 5)).asString
          = "contract_001" := rfl
    have happ : ("contract_001" ++ ".json" : String) = "contract_001.json" := rfl
    constructor
    · simp only [load_ground_truth, load_json_file, hc1, Bool.false_eq_true, if_false,
        happ, hnone]
      rfl
    · simp only [load_ground_truth, load_json_file, hc2, if_true, hs2, happ, hnone]
      rfl

/-- Witness for C10 on an empty ground-truth directory. -/
theorem C10_witness :
    load_ground_truth [] ("doc" ++ ".json") = load_ground_truth [] "doc" ∧
    load_ground_truth [] "contract_001" =
      Except.error (GtError.groundTruthNotFound
        "Ground truth not found for document 'contract_001'") := by
  obtain ⟨h1, h2⟩ := C10_ground_truth_json_suffix [] "doc" rfl
  exact ⟨h1, (h2 rfl).1⟩

/-- C1 counterexample: a missing ground-truth file raises the typed
`GroundTruthNotFoundError`, which `execute_run` re-raises WITHOUT marking
the run failed or persisting anything: the final store is unchanged (here
empty), contradicting the claim that the run is persisted as 'failed' with
`completed_at` set.  (No run is left in 'running' either.) -/
theorem C1_counterexample :
    execute_run envGtMissing "r1" "p1" "c1" "doc1" ⟨[]⟩ =
      (Except.error (PyExc.executorError ExecErrKind.groundTruthNotFound
        "Ground truth not found for document 'doc1'"), ⟨[]⟩) ∧
    (execute_run envGtMissing "r1" "p1" "c1" "doc1" ⟨[]⟩).2.runs = [] :=
  ⟨rfl, rfl⟩

/-- C1 (amended): a resolution failure raising a typed `ExecutorError`
propagates unchanged with the store untouched; any other resolution
failure (e.g. a decode error) persists the run as 'failed' with
`completed_at` set and raises `ExecutorError`.  In both cases the final
store is either the original one or has the failed run: no run is
persisted in (or mutated to) 'running'. -/
theorem C1_resolution_failure_dichotomy (env : ExecEnv)
    (run_id prompt_id config_id document_name : String) (st : Store)
    (e : PyExc) (hres : resolveResources env = Except.error e) :
    (∀ k m, e = PyExc.executorError k m →
        execute_run env run_id prompt_id config_id document_name st =
          (Except.error e, st)) ∧
    (∀ m, e = PyExc.otherError m →
        execute_run env run_id prompt_id config_id document_name st =
          (Except.error (PyExc.executorError ExecErrKind.executor
              ("Failed to load resources: " ++ m)),
            saveRun st { loadOrCreateRun env run_id prompt_id config_id document_name with
                status := "failed", completed_at := some env.tFail })) ∧
    ((execute_run env run_id prompt_id config_id document_name st).2 = st ∨
      (execute_run env run_id prompt_id config_id document_name st).2 =
        saveRun st { loadOrCreateRun env run_id prompt_id config_id document_name with
            status := "failed", completed_at := some env.tFail }) := by
  cases e with
  | executorError k m =>
      refine ⟨fun k' m' _ => ?_, fun m' hm => ?_, ?_⟩
      · simp only [execute_run, hres]
      · simp at hm
      · left
        simp only [execute_run, hres]
  | otherError m =>
      refine ⟨fun k' m' hk => ?_, fun m' hm => ?_, ?_⟩
      · simp at hk
      · injection hm with h2
        subst h2
        simp only [execute_run, hres]
      · right
        simp only [execute_run, hres]

/-- Witness for C1 (amended), decode-error side: the run IS persisted as
failed and an `ExecutorError` is raised. -/
theorem C1_witness :
    execute_run envGtDecode "r1" "p1" "c1" "doc1" ⟨[]⟩ =
      (Except.error (PyExc.executorError ExecErrKind.executor
        "Failed to load resources: Expecting value: line 1 column 1 (char 0)"),
       saveRun ⟨[]⟩ { loadOrCreateRun envGtDecode "r1" "p1" "c1" "doc1" with
           status := "failed", completed_at := some 1 }) := by
  exact (C1_resolution_failure_dichotomy envGtDecode "r1" "p1" "c1" "doc1" ⟨[]⟩
    (PyExc.otherError "Expecting value: line 1 column 1 (char 0)") rfl).2.1
    "Expecting value: line 1 column 1 (char 0)" rfl

/-- C5: if extraction (or any later step inside the try block) raises, the
run is persisted with status "failed", output `{"error": str(e)}` and
`completed_at` set, and the error is re-raised wrapped as
`ExtractionError` — never silently swallowed. -/
theorem C5_try_block_failure (env : ExecEnv)
    (run_id prompt_id config_id document_name : String) (st : Store)
    (config : ModelConfig) (doc : String) (gt : List (String × Json)) (msg : String)
    (hres : resolveResources env = Except.ok (config, doc, gt))
    (hsteps : runSteps env config gt = Except.error msg) :
    execute_run env run_id prompt_id config_id document_name st =
      (Except.error (PyExc.executorError ExecErrKind.extraction
          ("Extraction failed: " ++ msg)),
        saveRun
          (saveRun st
            { loadOrCreateRun env run_id prompt_id config_id document_name with
                status := "running", started_at := env.tStart })
          { loadOrCreateRun env run_id prompt_id config_id document_name with
              status := "failed", started_at := env.tStart,
              completed_at := some env.tEnd,
              output := some (Json.obj [("error", Json.str msg)]) }) ∧
    ((execute_run env run_id prompt_id config_id document_name st).2.runs.lookup
        (loadOrCreateRun env run_id prompt_id config_id document_name).id) =
      some { loadOrCreateRun env run_id prompt_id config_id document_name with
          status := "failed", started_at := env.tStart,
          completed_at := some env.tEnd,
          output := some (Json.obj [("error", Json.str msg)]) } := by
  have hmain : execute_run env run_id prompt_id config_id document_name st =
      (Except.error (PyExc.executorError ExecErrKind.extraction
          ("Extraction failed: " ++ msg)),
        saveRun
          (saveRun st
            { loadOrCreateRun env run_id prompt_id config_id document_name with
                status := "running", started_at := env.tStart })
          { loadOrCreateRun env run_id prompt_id config_id document_name with
              status := "failed", started_at := env.tStart,
              completed_at := some env.tEnd,
              output := some (Json.obj [("error", Json.str msg)]) }) := by
    simp only [execute_run, hres, hsteps]
  refine ⟨hmain, ?_⟩
  rw [hmain]
  simp [saveRun, List.lookup]

/-- Witness for C5: a concrete run whose extraction step raises
PipelineNotAvailableError. -/
theorem C5_witness :
    execute_run envExtractFail "r1" "p1" "c1" "doc1" ⟨[]⟩ =
      (Except.error (PyExc.executorError ExecErrKind.extraction
        "Extraction failed: Extraction pipeline not available. Import error: boom"),
       saveRun
         (saveRun ⟨[]⟩
           { loadOrCreateRun envExtractFail "r1" "p1" "c1" "doc1" with
               status := "running", started_at := 2 })
         { loadOrCreateRun envExtractFail "r1" "p1" "c1" "doc1" with
             status := "failed", started_at := 2, completed_at := some 3,
             output := some (Json.obj [("error",
               Json.str "Extraction pipeline not available. Import error: boom")]) }) := by
  exact (C5_try_block_failure envExtractFail "r1" "p1" "c1" "doc1" ⟨[]⟩
    cfgGpt4 "document text" [("a", Json.num 1)]
    "Extraction pipeline not available. Import error: boom" rfl rfl).1
